import Mathlib

/-!
Shallow embedding of `src/power_grid_model/core/power_grid_core.py`
(the ctypes binding layer of the power-grid-model repository).

The module declares a fixed set of native entry points (name, parameter
semantic types, return semantic type), maps host semantic types to wire
(ctypes) types through `_ARGS_TYPE_MAPPING`, applies a `c_size_t` override
for the names in `_FUNC_SIZE_T_RES`, and generates marshaling callables
through the `make_c_binding` decorator and the `WrapperFunc` functor.
-/

set_option autoImplicit false

namespace PowerGridCore

/-- The universe of types crossing the binding layer: host semantic types
(`pyStr`, `pyInt`, `pyFloat`, `pyNone`, i.e. the Python annotations
`str`, `int`, `float`, `None`) and native ctypes wire types, including the
pointer types declared at module top (`IdxPtr = POINTER(IdxC)` etc.). -/
inductive Ty where
  | pyStr
  | pyInt
  | pyFloat
  | pyNone
  | c_char_p
  | c_double
  | c_size_t
  | c_void_p
  | IdxC
  | IdC
  | HandlePtr
  | OptionsPtr
  | ModelPtr
  | IdxPtr
  | IdxDoublePtr
  | IDPtr
  | CharDoublePtr
  | VoidDoublePtr
  deriving DecidableEq, Repr

/-- Host-level values crossing the boundary. `pystr` is a Python `str`,
`bytes` its encoded byte representation; `int`, `float`, `handle` and
`ptr` cross unchanged; `none` is the Python `None`. -/
inductive Val where
  | pystr (s : String)
  | bytes (s : String)
  | int (n : Int)
  | float (bits : Nat)
  | handle (h : Nat)
  | ptr (p : Nat)
  | none
  deriving DecidableEq, Repr

/-- `arg.encode()`: defined (as UTF-8 encoding) only on host text; on any
other value the host raises, modelled as `Option.none`. -/
def Val.encode : Val → Option Val
  | .pystr s => some (.bytes s)
  | _ => Option.none

/-- `res.decode()`: defined only on byte sequences. -/
def Val.decode : Val → Option Val
  | .bytes s => some (.pystr s)
  | _ => Option.none

/-- Whether the character list `pat` occurs contiguously in the second list:
the Python substring test `pat in s`. -/
def occursIn (pat : List Char) : List Char → Bool
  | [] => pat.isEmpty
  | a :: l => pat.isPrefixOf (a :: l) || occursIn pat (l)

/-- `"destroy" in name`: the destructor-role test used by both
`make_c_binding` and `WrapperFunc.__call__`. -/
def containsDestroy (name : String) : Bool :=
  occursIn ("destroy").data name.data

/-- `_FUNC_SIZE_T_RES = {"meta_class_size", "meta_class_alignment",
"meta_attribute_offset"}` (line 27 of the source). -/
def FUNC_SIZE_T_RES : List String :=
  ["meta_class_size", "meta_class_alignment", "meta_attribute_offset"]

/-- `_ARGS_TYPE_MAPPING = {str: c_char_p, int: IdxC, float: c_double}`
read through `.get(x, x)`: a key absent from the table maps to itself. -/
def ARGS_TYPE_MAPPING (t : Ty) : Ty :=
  match t with
  | .pyStr => .c_char_p
  | .pyInt => .IdxC
  | .pyFloat => .c_double
  | x => x

/-- Lines 96 and 203: `c_argtypes = [_ARGS_TYPE_MAPPING.get(x, x) for x in
py_argtypes]`. -/
def cArgtypes (py_argtypes : List Ty) : List Ty :=
  py_argtypes.map ARGS_TYPE_MAPPING

/-- Lines 97-99 and 204-206: `c_restype = _ARGS_TYPE_MAPPING.get(py_restype,
py_restype)` followed by `if c_restype == IdxC and name in _FUNC_SIZE_T_RES:
c_restype = c_size_t`. -/
def wireRestype (name : String) (py_restype : Ty) : Ty :=
  let c := ARGS_TYPE_MAPPING py_restype
  if c = Ty.IdxC ∧ name ∈ FUNC_SIZE_T_RES then Ty.c_size_t else c

/-- The `.restype` value finally stored on the dll function: `None` (void,
modelled as `Option.none`) when the annotation is `None` — covering both the
direct `None` annotation in `make_c_binding` and the `NoneType` workaround of
lines 207-209 — and the wire type otherwise. -/
def cRestype (name : String) (py_restype : Ty) : Option Ty :=
  let c := wireRestype name py_restype
  if c = Ty.pyNone then Option.none else some c

/-- Lines 102-106 and 212-216: the `.argtypes` stored on the dll function —
`c_argtypes` alone for a destroy function, `[HandlePtr] + c_argtypes`
otherwise. -/
def dllArgtypes (name : String) (c_argtypes : List Ty) : List Ty :=
  if containsDestroy name then c_argtypes else Ty.HandlePtr :: c_argtypes

/-- Option-valued map over a list, modelling a Python loop that appends one
converted element per iteration and propagates a host-level exception. -/
def mapMOpt {α β : Type} (f : α → Option β) : List α → Option (List β)
  | [] => some []
  | a :: l => do
    let b ← f a
    let bs ← mapMOpt f (l)
    pure (b :: bs)

/-- One iteration of the marshaling loop (lines 115-119 and 156-160):
`if arg_type == c_char_p: c_inputs.append(arg.encode()) else:
c_inputs.append(arg)`. -/
def convertArg (arg_type : Ty) (arg : Val) : Option Val :=
  if arg_type = Ty.c_char_p then arg.encode else some arg

/-- The marshaled caller arguments: the loop body applied along
`zip(args, c_argtypes)`. -/
def marshalArgs (c_argtypes : List Ty) (args : List Val) : Option (List Val) :=
  mapMOpt (fun p => convertArg p.2 p.1) (args.zip c_argtypes)

/-- The full `c_inputs` list passed to the native entry point: empty, or the
session handle, followed by the marshaled caller arguments. -/
def cInputs (name : String) (handle : Val) (c_argtypes : List Ty)
    (args : List Val) : Option (List Val) :=
  (marshalArgs c_argtypes args).map fun ms =>
    (if containsDestroy name then [] else [handle]) ++ ms

/-- Lines 110-125, the closure returned by `make_c_binding`. `cdll` maps a
native symbol to its entry point (`getattr(_CDLL, f"PGM_{name}")`), looked up
at call time. Lines 111-114 choose `c_inputs = []` or `[self._handle]`,
lines 115-119 are `marshalArgs`, line 121 the native call, lines 123-125 the
`c_char_p` return decoding. -/
def cbind_func (cdll : String → List Val → Val) (name : String) (handle : Val)
    (c_argtypes : List Ty) (c_restype : Option Ty) (args : List Val) :
    Option Val := do
  let base : List Val := if containsDestroy name then [] else [handle]
  let ms ← marshalArgs c_argtypes args
  let res := cdll (("PGM_") ++ name) (base ++ ms)
  if c_restype = some Ty.c_char_p then res.decode else some res

/-- The state captured by `WrapperFunc.__init__` (lines 136-149). -/
structure WrapperFunc where
  cfunc : List Val → Val
  handle : Val
  name : String
  c_argtypes : List Ty
  c_restype : Option Ty

/-- `WrapperFunc.__init__`: caches `getattr(_CDLL, f"PGM_{name}")` together
with the handle, name and C types. -/
def WrapperFunc.init (cdll : String → List Val → Val) (handle : Val)
    (name : String) (c_argtypes : List Ty) (c_restype : Option Ty) :
    WrapperFunc :=
  { cfunc := cdll (("PGM_") ++ name), handle := handle, name := name,
    c_argtypes := c_argtypes, c_restype := c_restype }

/-- `WrapperFunc.__call__` (lines 151-166): same marshaling loop as
`cbind_func`, reading the cached fields. -/
def WrapperFunc.callImpl (self : WrapperFunc) (args : List Val) : Option Val := do
  let base : List Val := if containsDestroy self.name then [] else [self.handle]
  let ms ← marshalArgs self.c_argtypes args
  let res := self.cfunc (base ++ ms)
  if self.c_restype = some Ty.c_char_p then res.decode else some res

/-- The declared contract of one native entry point: its name and the
Python-level parameter and return annotations (the binding-time inputs of
`make_c_binding` and of the `__init__` loop). -/
structure Descriptor where
  name : String
  py_argtypes : List Ty
  py_restype : Ty
  deriving DecidableEq, Repr

/-- The twenty methods of `PowerGridCore` decorated with `@make_c_binding`
(lines 235-328), with their annotations, `self` excluded. -/
def moduleDescriptors : List Descriptor :=
  [ { name := ("error_code"), py_argtypes := [], py_restype := Ty.pyInt },
    { name := ("error_message"), py_argtypes := [], py_restype := Ty.pyStr },
    { name := ("n_failed_scenarios"), py_argtypes := [], py_restype := Ty.pyInt },
    { name := ("failed_scenarios"), py_argtypes := [], py_restype := Ty.IdxPtr },
    { name := ("batch_errors"), py_argtypes := [], py_restype := Ty.CharDoublePtr },
    { name := ("clear_error"), py_argtypes := [], py_restype := Ty.pyNone },
    { name := ("is_batch_independent"), py_argtypes := [], py_restype := Ty.pyInt },
    { name := ("is_batch_cache_topology"), py_argtypes := [], py_restype := Ty.pyInt },
    { name := ("meta_n_datasets"), py_argtypes := [], py_restype := Ty.pyInt },
    { name := ("meta_dataset_name"), py_argtypes := [Ty.pyInt], py_restype := Ty.pyStr },
    { name := ("meta_n_components"), py_argtypes := [Ty.pyStr], py_restype := Ty.pyInt },
    { name := ("meta_component_name"), py_argtypes := [Ty.pyStr, Ty.pyInt],
      py_restype := Ty.pyStr },
    { name := ("meta_component_alignment"), py_argtypes := [Ty.pyStr, Ty.pyStr],
      py_restype := Ty.pyInt },
    { name := ("meta_component_size"), py_argtypes := [Ty.pyStr, Ty.pyStr],
      py_restype := Ty.pyInt },
    { name := ("meta_n_attributes"), py_argtypes := [Ty.pyStr, Ty.pyStr],
      py_restype := Ty.pyInt },
    { name := ("meta_attribute_name"), py_argtypes := [Ty.pyStr, Ty.pyStr, Ty.pyInt],
      py_restype := Ty.pyStr },
    { name := ("meta_attribute_ctype"), py_argtypes := [Ty.pyStr, Ty.pyStr, Ty.pyStr],
      py_restype := Ty.pyStr },
    { name := ("meta_attribute_offset"), py_argtypes := [Ty.pyStr, Ty.pyStr, Ty.pyStr],
      py_restype := Ty.pyInt },
    { name := ("is_little_endian"), py_argtypes := [], py_restype := Ty.pyInt },
    { name := ("calculate"),
      py_argtypes := [Ty.ModelPtr, Ty.OptionsPtr, Ty.pyInt, Ty.CharDoublePtr,
        Ty.VoidDoublePtr, Ty.pyInt, Ty.pyInt, Ty.CharDoublePtr, Ty.IdxPtr,
        Ty.IdxDoublePtr, Ty.VoidDoublePtr],
      py_restype := Ty.pyNone } ]

/-- The thirteen non-underscore class annotations of `PowerGridCore`
(lines 176-189), bound by the `__init__` loop: `Callable[[...], R]` read as
parameter list and return type. -/
def classAnnotations : List Descriptor :=
  [ { name := ("create_options"), py_argtypes := [], py_restype := Ty.OptionsPtr },
    { name := ("destroy_options"), py_argtypes := [Ty.OptionsPtr], py_restype := Ty.pyNone },
    { name := ("set_calculation_type"), py_argtypes := [Ty.OptionsPtr, Ty.pyInt],
      py_restype := Ty.pyNone },
    { name := ("set_calculation_method"), py_argtypes := [Ty.OptionsPtr, Ty.pyInt],
      py_restype := Ty.pyNone },
    { name := ("set_symmetric"), py_argtypes := [Ty.OptionsPtr, Ty.pyInt],
      py_restype := Ty.pyNone },
    { name := ("set_err_tol"), py_argtypes := [Ty.OptionsPtr, Ty.pyFloat],
      py_restype := Ty.pyNone },
    { name := ("set_max_iter"), py_argtypes := [Ty.OptionsPtr, Ty.pyInt],
      py_restype := Ty.pyNone },
    { name := ("set_threading"), py_argtypes := [Ty.OptionsPtr, Ty.pyInt],
      py_restype := Ty.pyNone },
    { name := ("create_model"),
      py_argtypes := [Ty.pyFloat, Ty.pyInt, Ty.CharDoublePtr, Ty.IdxPtr, Ty.VoidDoublePtr],
      py_restype := Ty.ModelPtr },
    { name := ("update_model"),
      py_argtypes := [Ty.ModelPtr, Ty.pyInt, Ty.CharDoublePtr, Ty.IdxPtr, Ty.VoidDoublePtr],
      py_restype := Ty.pyNone },
    { name := ("copy_model"), py_argtypes := [Ty.ModelPtr], py_restype := Ty.ModelPtr },
    { name := ("get_indexer"),
      py_argtypes := [Ty.ModelPtr, Ty.pyStr, Ty.pyInt, Ty.IDPtr, Ty.IdxPtr],
      py_restype := Ty.pyNone },
    { name := ("destroy_model"), py_argtypes := [Ty.ModelPtr], py_restype := Ty.pyNone } ]

/-- Observable actions of the binding layer against the native library:
loading the shared library, assigning `.argtypes`/`.restype` on one dll
function, and calling one dll function. -/
inductive Event where
  | load (file : String)
  | configure (symbol : String) (argtypes : List Ty) (restype : Option Ty)
  | call (symbol : String) (inputs : List Val)
  deriving DecidableEq, Repr

/-- The `.argtypes`/`.restype` assignment performed for one declared
operation (lines 100-107 in `make_c_binding`, lines 210-217 in `__init__`). -/
def bindingConfig (d : Descriptor) : Event :=
  Event.configure (("PGM_") ++ d.name)
    (dllArgtypes d.name (cArgtypes d.py_argtypes))
    (cRestype d.name d.py_restype)

/-- Line 58-61: the platform-specific shared-library file name. -/
def dllFileName (isWindows : Bool) : String :=
  if isWindows then "_power_grid_core.dll" else "_power_grid_core.so"

/-- The actions of a successful `_load_core()` (lines 52-69): load the
library, then configure `PGM_create_handle` and `PGM_destroy_handle` with
explicit typing before returning. -/
def loadEvents (isWindows : Bool) : List Event :=
  [ Event.load (dllFileName isWindows),
    Event.configure ("PGM_create_handle") [] (some Ty.HandlePtr),
    Event.configure ("PGM_destroy_handle") [Ty.HandlePtr] Option.none ]

/-- `_load_core()` with its failure mode: `CDLL(...)` raises `OSError` when
the shared library cannot be located or loaded, and `_load_core` has no
handler and no fallback, so the error propagates; otherwise the load and the
two handle configurations happen before it returns. -/
def loadCore (isWindows : Bool) (canLoad : Bool) : Except String (List Event) :=
  if canLoad then Except.ok (loadEvents isWindows)
  else Except.error (("OSError: cannot load ") ++ dllFileName isWindows)

/-- The state of one `PowerGridCore` instance: the `_handle` field stored by
`__new__`. -/
structure Pgc where
  handle : Nat
  deriving DecidableEq, Repr

/-- `PowerGridCore.__new__` (lines 191-194): calls `PGM_create_handle` once
with no arguments and stores the returned handle; `fresh` is the value the
native entry point returns. -/
def pgc_new (fresh : Nat) : Pgc × List Event :=
  ({ handle := fresh }, [Event.call ("PGM_create_handle") []])

/-- `PowerGridCore.__del__` (lines 225-226): calls `PGM_destroy_handle` once
with the stored handle. -/
def pgc_del (self : Pgc) : List Event :=
  [Event.call ("PGM_destroy_handle") [Val.handle self.handle]]

/-- `PowerGridCore.__init__` (lines 196-223): for each non-underscore class
annotation, configure the dll function and attach a `WrapperFunc` carrying
`self._handle`; returns the attached wrappers and the configuration events. -/
def pgc_init (cdll : String → List Val → Val) (self : Pgc) :
    List (String × WrapperFunc) × List Event :=
  (classAnnotations.map fun d =>
     (d.name, WrapperFunc.init cdll (Val.handle self.handle) d.name
       (cArgtypes d.py_argtypes) (cRestype d.name d.py_restype)),
   classAnnotations.map bindingConfig)

/-- `PowerGridCore.__copy__` (lines 229-230): raises
`NotImplementedError("Class not copyable")` and performs no native call. -/
def pgc_copyMethod (self : Pgc) : Except String Pgc × List Event :=
  (Except.error ("Class not copyable"), [])

/-- `PowerGridCore.__deepcopy__` (lines 232-233): raises
`NotImplementedError("class not copyable")` and performs no native call. -/
def pgc_deepcopyMethod (self : Pgc) (memodict : List (Nat × Val)) :
    Except String Pgc × List Event :=
  (Except.error ("class not copyable"), [])

/-- Everything the module does against the native library up to and
including the construction of the singleton instance at line 332: load and
configure the handle primitives, run `make_c_binding` for each decorated
method, call `PGM_create_handle` in `__new__`, then configure each annotated
operation in `__init__`. -/
def constructionEvents (isWindows : Bool) : List Event :=
  loadEvents isWindows
    ++ moduleDescriptors.map bindingConfig
    ++ [Event.call ("PGM_create_handle") []]
    ++ classAnnotations.map bindingConfig

/-- Whether an event configures the given symbol. -/
def isConfigureOf (sym : String) : Event → Bool
  | .configure s _ _ => s == sym
  | _ => false

/-- Whether an event is a library load. -/
def isLoadEvent : Event → Bool
  | .load _ => true
  | _ => false

/-- Whether an event is a native call. -/
def isCallEvent : Event → Bool
  | .call _ _ => true
  | _ => false

/-- How many times the given symbol is configured in a trace. -/
def configCount (evts : List Event) (sym : String) : Nat :=
  (evts.filter (isConfigureOf sym)).length

/-- The native inputs a `WrapperFunc` invocation builds (the `c_inputs` of
`__call__`), exposed for trace reasoning. -/
def WrapperFunc.callInputs (self : WrapperFunc) (args : List Val) :
    Option (List Val) :=
  (marshalArgs self.c_argtypes args).map fun ms =>
    (if containsDestroy self.name then [] else [self.handle]) ++ ms

/-- The events of one `WrapperFunc` invocation: exactly one native call,
nothing else — in particular no `configure` event. -/
def WrapperFunc.callEvents (self : WrapperFunc) (args : List Val) :
    Option (List Event) :=
  (self.callInputs args).map fun ins => [Event.call (("PGM_") ++ self.name) ins]

/-! ## Helper lemmas -/

/-- A successful `mapMOpt` preserves length. -/
theorem mapMOpt_length {α β : Type} (f : α → Option β) :
    ∀ (l : List α) (bs : List β), mapMOpt f l = some bs → bs.length = l.length := by
  intro l
  induction l with
  | nil =>
    intro bs hb
    rw [mapMOpt] at hb
    cases hb
    rfl
  | cons a l ih =>
    intro bs hb
    rw [mapMOpt] at hb
    cases hc : f a with
    | none => rw [hc] at hb; cases hb
    | some b =>
      rw [hc] at hb
      cases hr : mapMOpt f l with
      | none => rw [hr] at hb; cases hb
      | some bs₀ =>
        rw [hr] at hb
        cases hb
        simp [ih bs₀ hr]

/-- Pointwise characterization of a successful `mapMOpt`. -/
theorem mapMOpt_get {α β : Type} (f : α → Option β) :
    ∀ (l : List α) (bs : List β), mapMOpt f l = some bs →
      ∀ (i : Nat) (hl : i < l.length) (hb : i < bs.length),
        f (l.get ⟨i, hl⟩) = some (bs.get ⟨i, hb⟩) := by
  intro l
  induction l with
  | nil =>
    intro bs _ i hl _
    exact absurd hl (Nat.not_lt_zero i)
  | cons a l ih =>
    intro bs hb i hl hbi
    rw [mapMOpt] at hb
    cases hc : f a with
    | none => rw [hc] at hb; cases hb
    | some b =>
      rw [hc] at hb
      cases hr : mapMOpt f l with
      | none => rw [hr] at hb; cases hb
      | some bs₀ =>
        rw [hr] at hb
        cases hb
        cases i with
        | zero => exact hc
        | succ j => exact ih bs₀ hr j (Nat.lt_of_succ_lt_succ hl) (Nat.lt_of_succ_lt_succ hbi)

/-- Zipping truncates the left list to the length of the right one. -/
theorem zip_take_left {α β : Type} :
    ∀ (l₁ : List α) (l₂ : List β), l₁.zip l₂ = (l₁.take l₂.length).zip l₂ := by
  intro l₁
  induction l₁ with
  | nil => intro l₂; simp
  | cons a l₁ ih =>
    intro l₂
    cases l₂ with
    | nil => simp
    | cons b l₂ => simp [List.zip_cons_cons, ih l₂]

/-- A successful marshaling has one output per zipped pair. -/
theorem marshalArgs_length (c_argtypes : List Ty) (args ms : List Val)
    (hm : marshalArgs c_argtypes args = some ms) :
    ms.length = min args.length c_argtypes.length := by
  rw [marshalArgs] at hm
  have h := mapMOpt_length (fun p => convertArg p.2 p.1) (args.zip c_argtypes) ms hm
  simpa using h

/-- Pointwise characterization of a successful marshaling: the i-th native
input is the i-th caller argument converted at the i-th declared C type. -/
theorem marshalArgs_get (c_argtypes : List Ty) (args ms : List Val)
    (hm : marshalArgs c_argtypes args = some ms) :
    ∀ (i : Nat) (ht : i < c_argtypes.length) (ha : i < args.length)
      (hi : i < ms.length),
      convertArg (c_argtypes.get ⟨i, ht⟩) (args.get ⟨i, ha⟩) =
        some (ms.get ⟨i, hi⟩) := by
  rw [marshalArgs] at hm
  intro i ht ha hi
  have h := mapMOpt_get (fun p => convertArg p.2 p.1) (args.zip c_argtypes) ms hm i
    (by simp [Nat.lt_min]; exact ⟨ha, ht⟩) hi
  have hz : (args.zip c_argtypes).get ⟨i, by simp [Nat.lt_min]; exact ⟨ha, ht⟩⟩ =
      (args.get ⟨i, ha⟩, c_argtypes.get ⟨i, ht⟩) := by
    simp [List.get_eq_getElem, List.getElem_zip]
  rw [hz] at h
  exact h

/-- When every declared C type is non-text and the arity matches, marshaling
is the identity. -/
theorem marshalArgs_id :
    ∀ (c_argtypes : List Ty) (args : List Val),
      args.length = c_argtypes.length →
      (∀ t ∈ c_argtypes, t ≠ Ty.c_char_p) →
      marshalArgs c_argtypes args = some args := by
  intro ts
  induction ts with
  | nil =>
    intro args hl _
    cases args with
    | nil => rfl
    | cons a args => cases hl
  | cons t ts ih =>
    intro args hl hnt
    cases args with
    | nil => cases hl
    | cons a args =>
      have ht : t ≠ Ty.c_char_p := hnt t (List.mem_cons_self t ts)
      have hrec := ih args (Nat.succ_injective hl)
        (fun u hu => hnt u (List.mem_cons_of_mem t hu))
      rw [marshalArgs] at hrec
      rw [marshalArgs, List.zip_cons_cons, mapMOpt]
      have h1 : convertArg t a = some a := by simp [convertArg, ht]
      simp [h1, hrec]

/-- `cbind_func` factored through the marshaled input list. -/
theorem cbind_func_eq (cdll : String → List Val → Val) (name : String)
    (h : Val) (ts : List Ty) (r : Option Ty) (args : List Val) :
    cbind_func cdll name h ts r args =
      (cInputs name h ts args).bind fun ins =>
        if r = some Ty.c_char_p then (cdll (("PGM_") ++ name) ins).decode
        else some (cdll (("PGM_") ++ name) ins) := by
  cases hm : marshalArgs ts args with
  | none => simp [cbind_func, cInputs, hm]
  | some ms => simp [cbind_func, cInputs, hm]

/-- A wrapper built by `__init__` for a non-destructor prepends its stored
handle to the marshaled caller arguments. -/
theorem wrapper_init_callInputs (cdll : String → List Val → Val) (h : Val)
    (name : String) (ts : List Ty) (r : Option Ty) (args ms : List Val)
    (hm : marshalArgs ts args = some ms) (hd : containsDestroy name = false) :
    (WrapperFunc.init cdll h name ts r).callInputs args = some (h :: ms) := by
  simp [WrapperFunc.callInputs, WrapperFunc.init, hm, hd]

/-- `WrapperFunc.callImpl` factored through `callInputs`. -/
theorem wrapper_call_eq (self : WrapperFunc) (args : List Val) :
    self.callImpl args =
      (self.callInputs args).bind fun ins =>
        if self.c_restype = some Ty.c_char_p then (self.cfunc ins).decode
        else some (self.cfunc ins) := by
  cases hm : marshalArgs self.c_argtypes args with
  | none => simp [WrapperFunc.callImpl, WrapperFunc.callInputs, hm]
  | some ms => simp [WrapperFunc.callImpl, WrapperFunc.callInputs, hm]

/-! ## Claim theorems -/

/-- C1: the claim states that all three declared size/alignment/offset query
operations — `meta_component_size`, `meta_component_alignment`,
`meta_attribute_offset` — get the unsigned `c_size_t` wire return type in
place of their declared signed-index return type. On the code this fails:
the override set `_FUNC_SIZE_T_RES` names `meta_class_size` and
`meta_class_alignment`, which match no declared operation, so among the
declared operations only `meta_attribute_offset` is overridden, while
`meta_component_size` and `meta_component_alignment` keep the signed `IdxC`
wire return type. This theorem records the divergence: the override set's
own two dead entries, the absence of any operation bearing those names, and
the `IdxC` return typing actually configured for the two component queries. -/
theorem c1_size_t_override_gap :
    wireRestype ("meta_attribute_offset") Ty.pyInt = Ty.c_size_t ∧
    wireRestype ("meta_component_size") Ty.pyInt = Ty.IdxC ∧
    wireRestype ("meta_component_alignment") Ty.pyInt = Ty.IdxC ∧
    cRestype ("meta_component_size") Ty.pyInt = some Ty.IdxC ∧
    cRestype ("meta_component_alignment") Ty.pyInt = some Ty.IdxC ∧
    ("meta_class_size") ∈ FUNC_SIZE_T_RES ∧
    ("meta_class_alignment") ∈ FUNC_SIZE_T_RES ∧
    ((moduleDescriptors ++ classAnnotations).map Descriptor.name).all
      (fun n => !(n == ("meta_class_size")) && !(n == ("meta_class_alignment"))) = true ∧
    Descriptor.mk ("meta_component_size") [Ty.pyStr, Ty.pyStr] Ty.pyInt ∈
      moduleDescriptors ∧
    bindingConfig (Descriptor.mk ("meta_component_size") [Ty.pyStr, Ty.pyStr] Ty.pyInt) =
      Event.configure ("PGM_meta_component_size")
        [Ty.HandlePtr, Ty.c_char_p, Ty.c_char_p] (some Ty.IdxC) ∧
    bindingConfig
        (Descriptor.mk ("meta_attribute_offset") [Ty.pyStr, Ty.pyStr, Ty.pyStr] Ty.pyInt) =
      Event.configure ("PGM_meta_attribute_offset")
        [Ty.HandlePtr, Ty.c_char_p, Ty.c_char_p, Ty.c_char_p] (some Ty.c_size_t) := by
  decide

/-- C2: a generated binding whose operation name contains `destroy` passes
exactly the marshaled caller-supplied arguments and omits the session handle
entirely; every other binding gets the handle prepended as the first native
argument. Moreover, when the declared C types contain no text type and the
arity matches, the marshaled arguments are exactly the caller-supplied
values. -/
theorem c2_destroy_handle_rule (name : String) (h : Val) (ts : List Ty)
    (args ms : List Val) (hm : marshalArgs ts args = some ms) :
    (containsDestroy name = true → cInputs name h ts args = some ms) ∧
    (containsDestroy name = false → cInputs name h ts args = some (h :: ms)) ∧
    (args.length = ts.length → (∀ t ∈ ts, t ≠ Ty.c_char_p) → ms = args) := by
  refine ⟨?_, ?_, ?_⟩
  · intro hd; simp [cInputs, hm, hd]
  · intro hd; simp [cInputs, hm, hd]
  · intro hl hnt
    have hid := marshalArgs_id ts args hl hnt
    rw [hm] at hid
    exact Option.some.inj hid

/-- Witness for C2 at the `destroy_options` binding. -/
theorem c2_destroy_handle_rule_witness :
    marshalArgs [Ty.OptionsPtr] [Val.ptr 3] = some [Val.ptr 3] ∧
    ((containsDestroy ("destroy_options") = true →
        cInputs ("destroy_options") (Val.handle 7) [Ty.OptionsPtr] [Val.ptr 3] =
          some [Val.ptr 3]) ∧
     (containsDestroy ("destroy_options") = false →
        cInputs ("destroy_options") (Val.handle 7) [Ty.OptionsPtr] [Val.ptr 3] =
          some (Val.handle 7 :: [Val.ptr 3])) ∧
     ([Val.ptr 3].length = [Ty.OptionsPtr].length →
        (∀ t ∈ [Ty.OptionsPtr], t ≠ Ty.c_char_p) → [Val.ptr 3] = [Val.ptr 3])) :=
  ⟨by decide,
   c2_destroy_handle_rule ("destroy_options") (Val.handle 7) [Ty.OptionsPtr]
     [Val.ptr 3] [Val.ptr 3] (by decide)⟩

/-- C3: `__copy__` and `__deepcopy__` on a session object raise the
"not supported" signal immediately, in any instance state, with zero native
calls performed. -/
theorem c3_copy_rejected (self : Pgc) (memodict : List (Nat × Val)) :
    pgc_copyMethod self = (Except.error ("Class not copyable"), []) ∧
    pgc_deepcopyMethod self memodict = (Except.error ("class not copyable"), []) ∧
    ((pgc_copyMethod self).2.filter isCallEvent).length = 0 ∧
    ((pgc_deepcopyMethod self memodict).2.filter isCallEvent).length = 0 :=
  ⟨rfl, rfl, rfl, rfl⟩

/-- C4: in every generated binding, the argument at each position whose
declared C type is `c_char_p` is encoded from host text to bytes, every
non-text argument passes through unchanged, a text return value is decoded
back to host text, and the binding applies the native entry point to exactly
the marshaled input list, decoding the result precisely when the configured
return type is `c_char_p`. -/
theorem c4_text_encoding (cdll : String → List Val → Val) (name : String)
    (h : Val) (ts : List Ty) (r : Option Ty) (args ms : List Val)
    (hm : marshalArgs ts args = some ms) :
    (∀ (i : Nat) (ht : i < ts.length) (ha : i < args.length) (hi : i < ms.length),
       (ts.get ⟨i, ht⟩ = Ty.c_char_p →
          (args.get ⟨i, ha⟩).encode = some (ms.get ⟨i, hi⟩)) ∧
       (ts.get ⟨i, ht⟩ ≠ Ty.c_char_p → ms.get ⟨i, hi⟩ = args.get ⟨i, ha⟩)) ∧
    (∀ s, Val.decode (Val.bytes s) = some (Val.pystr s)) ∧
    (∀ ins, cInputs name h ts args = some ins →
       cbind_func cdll name h ts r args =
         if r = some Ty.c_char_p then (cdll (("PGM_") ++ name) ins).decode
         else some (cdll (("PGM_") ++ name) ins)) := by
  refine ⟨?_, fun s => rfl, ?_⟩
  · intro i ht ha hi
    have hc := marshalArgs_get ts args ms hm i ht ha hi
    constructor
    · intro htext
      rw [htext] at hc
      simpa [convertArg] using hc
    · intro htext
      rw [convertArg] at hc
      rw [if_neg htext] at hc
      exact (Option.some.inj hc).symm
  · intro ins hins
    rw [cbind_func_eq, hins]
    rfl

/-- Witness for C4 at a one-text-argument binding with text return. -/
theorem c4_text_encoding_witness :
    marshalArgs [Ty.c_char_p] [Val.pystr ("a")] = some [Val.bytes ("a")] ∧
    ((∀ (i : Nat) (ht : i < [Ty.c_char_p].length)
        (ha : i < [Val.pystr ("a")].length) (hi : i < [Val.bytes ("a")].length),
        ([Ty.c_char_p].get ⟨i, ht⟩ = Ty.c_char_p →
           ([Val.pystr ("a")].get ⟨i, ha⟩).encode =
             some ([Val.bytes ("a")].get ⟨i, hi⟩)) ∧
        ([Ty.c_char_p].get ⟨i, ht⟩ ≠ Ty.c_char_p →
           [Val.bytes ("a")].get ⟨i, hi⟩ = [Val.pystr ("a")].get ⟨i, ha⟩)) ∧
     (∀ s, Val.decode (Val.bytes s) = some (Val.pystr s)) ∧
     (∀ ins, cInputs ("f") (Val.handle 7) [Ty.c_char_p] [Val.pystr ("a")] = some ins →
        cbind_func (fun _ _ => Val.bytes ("r")) ("f") (Val.handle 7) [Ty.c_char_p]
            (some Ty.c_char_p) [Val.pystr ("a")] =
          if (some Ty.c_char_p : Option Ty) = some Ty.c_char_p then
            ((fun (_ : String) (_ : List Val) => Val.bytes ("r"))
              (("PGM_") ++ ("f")) ins).decode
          else some ((fun (_ : String) (_ : List Val) => Val.bytes ("r"))
              (("PGM_") ++ ("f")) ins))) :=
  ⟨by decide,
   c4_text_encoding (fun _ _ => Val.bytes ("r")) ("f") (Val.handle 7)
     [Ty.c_char_p] (some Ty.c_char_p) [Val.pystr ("a")] [Val.bytes ("a")]
     (by decide)⟩

/-- C5: `__new__` calls the native create-handle entry point exactly once
and stores the returned handle; `__del__` calls the destroy-handle entry
point exactly once with that same handle; and every non-destructor wrapper
attached by `__init__` carries that handle and prepends it to its native
inputs. -/
theorem c5_handle_lifecycle (fresh : Nat) (cdll : String → List Val → Val) :
    (pgc_new fresh).2 = [Event.call ("PGM_create_handle") []] ∧
    (pgc_new fresh).1.handle = fresh ∧
    pgc_del (pgc_new fresh).1 =
      [Event.call ("PGM_destroy_handle") [Val.handle fresh]] ∧
    ∀ p ∈ (pgc_init cdll (pgc_new fresh).1).1,
      containsDestroy p.1 = false →
        p.2.handle = Val.handle fresh ∧
        ∀ (args ms : List Val), marshalArgs p.2.c_argtypes args = some ms →
          p.2.callInputs args = some (Val.handle fresh :: ms) := by
  refine ⟨rfl, rfl, rfl, ?_⟩
  intro p hp hd
  rw [pgc_init] at hp
  simp only [List.mem_map] at hp
  obtain ⟨d, hdm, hpd⟩ := hp
  subst hpd
  simp only at hd
  refine ⟨rfl, ?_⟩
  intro args ms hm
  exact wrapper_init_callInputs cdll (Val.handle fresh) d.name
    (cArgtypes d.py_argtypes) (cRestype d.name d.py_restype) args ms hm hd

/-- Witness for C5 at a concrete fresh handle and native table. -/
theorem c5_handle_lifecycle_witness :
    (pgc_new 7).2 = [Event.call ("PGM_create_handle") []] ∧
    (pgc_new 7).1.handle = 7 ∧
    pgc_del (pgc_new 7).1 =
      [Event.call ("PGM_destroy_handle") [Val.handle 7]] ∧
    ∀ p ∈ (pgc_init (fun _ _ => Val.none) (pgc_new 7).1).1,
      containsDestroy p.1 = false →
        p.2.handle = Val.handle 7 ∧
        ∀ (args ms : List Val), marshalArgs p.2.c_argtypes args = some ms →
          p.2.callInputs args = some (Val.handle 7 :: ms) :=
  c5_handle_lifecycle 7 (fun _ _ => Val.none)

/-- C6: the type mapping table sends host text to `c_char_p`, the signed
index type to `IdxC` and double-precision float to `c_double`, and returns
every other type — pointer and opaque-handle types included — unchanged. -/
theorem c6_type_mapping_table :
    ARGS_TYPE_MAPPING Ty.pyStr = Ty.c_char_p ∧
    ARGS_TYPE_MAPPING Ty.pyInt = Ty.IdxC ∧
    ARGS_TYPE_MAPPING Ty.pyFloat = Ty.c_double ∧
    ∀ t : Ty, t ≠ Ty.pyStr → t ≠ Ty.pyInt → t ≠ Ty.pyFloat →
      ARGS_TYPE_MAPPING t = t := by
  refine ⟨rfl, rfl, rfl, ?_⟩
  intro t h1 h2 h3
  cases t <;> first | rfl | exact absurd rfl h1 | exact absurd rfl h2 | exact absurd rfl h3

/-- Witness for C6 at the opaque model-pointer type. -/
theorem c6_type_mapping_table_witness :
    Ty.ModelPtr ≠ Ty.pyStr ∧ Ty.ModelPtr ≠ Ty.pyInt ∧ Ty.ModelPtr ≠ Ty.pyFloat ∧
    ARGS_TYPE_MAPPING Ty.ModelPtr = Ty.ModelPtr :=
  ⟨by decide, by decide, by decide,
   c6_type_mapping_table.2.2.2 Ty.ModelPtr (by decide) (by decide) (by decide)⟩

/-- C7: during module import and construction of the singleton instance each
declared binding's dll typing is configured exactly once, and an invocation
of a cached wrapper emits exactly one native call event and no configure
event, so no binding's typing is added, removed or changed by calls. -/
theorem c7_configure_once (w : Bool) :
    (∀ d ∈ moduleDescriptors ++ classAnnotations,
        configCount (constructionEvents w) (("PGM_") ++ d.name) = 1) ∧
    (∀ (wf : WrapperFunc) (args : List Val) (evts : List Event),
        wf.callEvents args = some evts →
        evts.all isCallEvent = true ∧ ∀ sym, configCount evts sym = 0) := by
  constructor
  · cases w <;> decide
  · intro wf args evts he
    rw [WrapperFunc.callEvents] at he
    cases hi : wf.callInputs args with
    | none => rw [hi] at he; cases he
    | some ins =>
      rw [hi] at he
      simp only [Option.map_some'] at he
      have he2 := Option.some.inj he
      subst he2
      exact ⟨rfl, fun sym => rfl⟩

/-- Witness for C7 on the Linux construction trace and a concrete wrapper. -/
theorem c7_configure_once_witness :
    configCount (constructionEvents false) (("PGM_") ++ ("calculate")) = 1 ∧
    (WrapperFunc.init (fun _ _ => Val.none) (Val.handle 7) ("copy_model")
        [Ty.ModelPtr] (some Ty.ModelPtr)).callEvents [Val.ptr 3] =
      some [Event.call (("PGM_") ++ ("copy_model")) [Val.handle 7, Val.ptr 3]] ∧
    ([Event.call (("PGM_") ++ ("copy_model")) [Val.handle 7, Val.ptr 3]].all
        isCallEvent = true ∧
      ∀ sym, configCount
        [Event.call (("PGM_") ++ ("copy_model")) [Val.handle 7, Val.ptr 3]] sym = 0) := by
  refine ⟨?_, ?_, ?_⟩
  · exact (c7_configure_once false).1
      (Descriptor.mk ("calculate")
        [Ty.ModelPtr, Ty.OptionsPtr, Ty.pyInt, Ty.CharDoublePtr, Ty.VoidDoublePtr,
         Ty.pyInt, Ty.pyInt, Ty.CharDoublePtr, Ty.IdxPtr, Ty.IdxDoublePtr,
         Ty.VoidDoublePtr] Ty.pyNone)
      (by decide)
  · decide
  · exact (c7_configure_once false).2
      (WrapperFunc.init (fun _ _ => Val.none) (Val.handle 7) ("copy_model")
        [Ty.ModelPtr] (some Ty.ModelPtr))
      [Val.ptr 3]
      [Event.call (("PGM_") ++ ("copy_model")) [Val.handle 7, Val.ptr 3]]
      (by decide)

/-- C8: `_load_core` loads the shared library and configures both handle
entry points with explicit typing before returning, fails fatally with no
fallback when the library cannot be loaded, and the whole module
construction contains exactly one load event. -/
theorem c8_load_once_fatal (w : Bool) :
    loadCore w false = Except.error (("OSError: cannot load ") ++ dllFileName w) ∧
    loadCore w true = Except.ok (loadEvents w) ∧
    (loadEvents w).filter (isConfigureOf ("PGM_create_handle")) =
      [Event.configure ("PGM_create_handle") [] (some Ty.HandlePtr)] ∧
    (loadEvents w).filter (isConfigureOf ("PGM_destroy_handle")) =
      [Event.configure ("PGM_destroy_handle") [Ty.HandlePtr] Option.none] ∧
    ((constructionEvents w).filter isLoadEvent).length = 1 := by
  cases w <;> exact ⟨rfl, rfl, by decide, by decide, by decide⟩

/-- C9: the two binding mechanisms agree extensionally: for every native
table, operation name, C typing, session handle and caller argument list,
the closure produced by `make_c_binding` and a `WrapperFunc` built from the
same data marshal identically and return the same converted result. -/
theorem c9_two_mechanisms_agree (cdll : String → List Val → Val)
    (name : String) (h : Val) (ts : List Ty) (r : Option Ty) (args : List Val) :
    cbind_func cdll name h ts r args =
      (WrapperFunc.init cdll h name ts r).callImpl args := rfl

/-- C10: marshaling pairs caller arguments with declared C types
positionally and stops at the shorter list: surplus caller arguments are
silently dropped (the inputs equal those of the truncated argument list, and
no arity error is possible at this layer), and with fewer arguments only the
supplied ones are marshaled, the input count being the handle prefix plus
the minimum of the two lengths. -/
theorem c10_surplus_args_dropped (name : String) (h : Val) (ts : List Ty)
    (args : List Val) :
    cInputs name h ts args = cInputs name h ts (args.take ts.length) ∧
    (∀ wf : WrapperFunc, wf.callInputs args =
        cInputs wf.name wf.handle wf.c_argtypes args) ∧
    ∀ ins, cInputs name h ts args = some ins →
      ins.length = (if containsDestroy name then 0 else 1) +
        min args.length ts.length := by
  refine ⟨?_, fun wf => rfl, ?_⟩
  · rw [cInputs, cInputs, marshalArgs, marshalArgs, ← zip_take_left]
  · intro ins hins
    rw [cInputs] at hins
    cases hm : marshalArgs ts args with
    | none => rw [hm] at hins; cases hins
    | some ms =>
      rw [hm] at hins
      simp only [Option.map_some'] at hins
      have hins2 := Option.some.inj hins
      subst hins2
      have hlen := marshalArgs_length ts args ms hm
      cases hd : containsDestroy name <;>
        simp [hd, List.length_append, hlen, Nat.add_comm]

/-- Witness for C10: two caller arguments against one declared C type. -/
theorem c10_surplus_args_dropped_witness :
    (cInputs ("foo") (Val.handle 5) [Ty.IdxC] [Val.int 1, Val.int 2] =
      cInputs ("foo") (Val.handle 5) [Ty.IdxC]
        ([Val.int 1, Val.int 2].take [Ty.IdxC].length) ∧
    (∀ wf : WrapperFunc, wf.callInputs [Val.int 1, Val.int 2] =
        cInputs wf.name wf.handle wf.c_argtypes [Val.int 1, Val.int 2]) ∧
    ∀ ins, cInputs ("foo") (Val.handle 5) [Ty.IdxC] [Val.int 1, Val.int 2] = some ins →
      ins.length = (if containsDestroy ("foo") then 0 else 1) +
        min [Val.int 1, Val.int 2].length [Ty.IdxC].length) ∧
    cInputs ("foo") (Val.handle 5) [Ty.IdxC] [Val.int 1, Val.int 2] =
      some [Val.handle 5, Val.int 1] :=
  ⟨c10_surplus_args_dropped ("foo") (Val.handle 5) [Ty.IdxC] [Val.int 1, Val.int 2],
   by decide⟩

end PowerGridCore
